import Mathlib

/-!
Verification of the one-shot channel of `aiosync` / `aio_sync`.

The repository has two near-identical modules:
* `src/aio_sync/oneshot.py` — `_SharedState[T]`, `OneShotSender[T]`, `OneShotReceiver[T]`,
  and the constructor `oneshot_channel` / `OneShot[T].channel`;
* `src/aiosync/oneshot.py` — a single `OneShot[T]` object with `send` / `try_recv` / `recv`.

Modelling choices, faithful to the Python source:
* A Python object of declared type `T | None` is modelled as `Option T`, with `none`
  standing for the Python object `None`.  Because Python erases the type parameter at
  runtime, a payload type that itself admits `None` collapses into the same
  representation: `send` therefore takes an `Option T` argument (the Python object
  actually passed), and storing the Python `None` payload makes the `value` field `none`.
* `asyncio.Event` is modelled by a `Bool` recording whether the event is set
  (`Event.is_set()` reads it, `Event.set()` sets it; an `Event` starts unset).
* `send` returns the raised exception (if any) together with the state of the cell after
  the call; a `raise` happens before any field assignment, so on error the state is
  returned unchanged, exactly as in the source.
* `recv` first awaits the waker: if the waker is unset at call time the call suspends
  (modelled by the outcome `suspends`); if it is set, `Event.wait()` returns immediately
  and the body proceeds to the assertion and the return.
-/

/-- Python exceptions raised by the modules: `ValueError` from `send` when the waker is
already set, and `AssertionError` from the defensive asserts in `try_recv` / `recv`. -/
inductive PyError where
  | valueError
  | assertionError
  deriving DecidableEq, Repr

/-- Immediate outcome of a call to the suspending `recv`: the call either suspends
(waker unset at call time), fails its defensive assertion after waking, or returns a
value right away. -/
inductive RecvOutcome (T : Type) where
  | suspends
  | assertFail
  | returns : Option T → RecvOutcome T
  deriving DecidableEq, Repr

/-- One call of the public API, the alphabet of operation traces. -/
inductive Op (T : Type) where
  | send : Option T → Op T
  | tryRecv : Op T
  | recv : Op T
  deriving DecidableEq, Repr

/-- The observable result of one API call in a trace. -/
inductive Obs (T : Type) where
  | sendOk
  | raisedValueError
  | tryRecvReturned : Option T → Obs T
  | recvReturned : Option T → Obs T
  | recvSuspended
  | assertFailed
  deriving DecidableEq, Repr

namespace AioSync

/-- `_SharedState[T]` of `src/aio_sync/oneshot.py`: `waker: Event` (modelled by whether
the event is set), `sent: bool`, `value: T | None`. -/
structure SharedState (T : Type) where
  waker : Bool
  sent : Bool
  value : Option T
  deriving DecidableEq, Repr

/-- The shared cell produced by `oneshot_channel` / `OneShot[T].channel`: the field
defaults of `_SharedState` are a fresh unset `Event()`, `sent = False`, `value = None`. -/
def SharedState.init (T : Type) : SharedState T := ⟨false, false, none⟩

variable {T : Type}

/-- `OneShotSender.send`: if `self._state.waker.is_set()` it raises
`ValueError("OneShot can only send once, ...")` before touching any field; otherwise it
stores the value, sets `sent = True` and sets the waker. -/
def send (s : SharedState T) (v : Option T) : Except PyError Unit × SharedState T :=
  if s.waker then (Except.error PyError.valueError, s)
  else (Except.ok (), { waker := true, sent := true, value := v })

/-- `OneShotReceiver.try_recv`: if the waker is set, assert `sent` (raising
`AssertionError` on violation) and return the stored value; otherwise return `None`. -/
def tryRecv (s : SharedState T) : Except PyError (Option T) :=
  if s.waker then
    if s.sent then Except.ok s.value
    else Except.error PyError.assertionError
  else Except.ok none

/-- `OneShotReceiver.recv`: `await self._state.waker.wait()` — suspends when the waker
is unset, returns immediately when it is set — then assert `sent` and return the stored
value. -/
def recv (s : SharedState T) : RecvOutcome T :=
  if s.waker then
    if s.sent then RecvOutcome.returns s.value
    else RecvOutcome.assertFail
  else RecvOutcome.suspends

/-- Run one API call on the shared cell, returning the observation and the cell
afterwards.  `try_recv` and `recv` perform no assignment in the source, so they return
the cell as they found it. -/
def step (s : SharedState T) : Op T → Obs T × SharedState T
  | Op.send v =>
      match send s v with
      | (Except.ok _, s') => (Obs.sendOk, s')
      | (Except.error _, s') => (Obs.raisedValueError, s')
  | Op.tryRecv =>
      match tryRecv s with
      | Except.ok r => (Obs.tryRecvReturned r, s)
      | Except.error _ => (Obs.assertFailed, s)
  | Op.recv =>
      match recv s with
      | RecvOutcome.returns r => (Obs.recvReturned r, s)
      | RecvOutcome.assertFail => (Obs.assertFailed, s)
      | RecvOutcome.suspends => (Obs.recvSuspended, s)

/-- Run a sequence of API calls from a given cell state. -/
def runOps (s : SharedState T) : List (Op T) → List (Obs T) × SharedState T
  | [] => ([], s)
  | op :: ops =>
      let os := runOps (step s op).2 ops
      ((step s op).1 :: os.1, os.2)

/-- The cell state after a sequence of API calls. -/
def execOps (s : SharedState T) (ops : List (Op T)) : SharedState T :=
  (runOps s ops).2

/-- The cell after a successful `send` of the Python object `v`. -/
def filled (v : Option T) : SharedState T := ⟨true, true, v⟩

/-- The Python object carried by the first `send` call of a trace, if any.  Starting
from a fresh cell the first `send` is the one that succeeds; later `send`s raise. -/
def firstSendPayload : List (Op T) → Option (Option T)
  | [] => none
  | Op.send v :: _ => some v
  | Op.tryRecv :: ops => firstSendPayload ops
  | Op.recv :: ops => firstSendPayload ops

/-- Whether no `send` call of the trace carries the Python object `None`. -/
def noNoneSend (ops : List (Op T)) : Bool :=
  ops.all fun op =>
    match op with
    | Op.send none => false
    | _ => true

end AioSync

namespace Aiosync

/-- `OneShot[T]` of `src/aiosync/oneshot.py`: `_waker: Event` (modelled by whether the
event is set), `_sent: bool`, `_value: T | None`. -/
structure OneShot (T : Type) where
  waker : Bool
  sent : Bool
  value : Option T
  deriving DecidableEq, Repr

/-- A freshly constructed `OneShot()`: the field defaults are a fresh unset `Event()`,
`_sent = False`, `_value = None`. -/
def OneShot.init (T : Type) : OneShot T := ⟨false, false, none⟩

variable {T : Type}

/-- `OneShot.send`: if `self._waker.is_set()` it raises `ValueError` before touching any
field; otherwise it stores the value, sets `_sent = True` and sets the waker. -/
def OneShot.send (c : OneShot T) (v : Option T) : Except PyError Unit × OneShot T :=
  if c.waker then (Except.error PyError.valueError, c)
  else (Except.ok (), { waker := true, sent := true, value := v })

/-- `OneShot.try_recv`: if the waker is set, assert `_sent` and return the stored value;
otherwise the bare `return` yields `None`. -/
def OneShot.tryRecv (c : OneShot T) : Except PyError (Option T) :=
  if c.waker then
    if c.sent then Except.ok c.value
    else Except.error PyError.assertionError
  else Except.ok none

/-- `OneShot.recv`: `await self._waker.wait()`, then assert `_sent` and return
`self._value`. -/
def OneShot.recv (c : OneShot T) : RecvOutcome T :=
  if c.waker then
    if c.sent then RecvOutcome.returns c.value
    else RecvOutcome.assertFail
  else RecvOutcome.suspends

/-- Run one API call on the `OneShot` object. -/
def step (c : OneShot T) : Op T → Obs T × OneShot T
  | Op.send v =>
      match c.send v with
      | (Except.ok _, c') => (Obs.sendOk, c')
      | (Except.error _, c') => (Obs.raisedValueError, c')
  | Op.tryRecv =>
      match c.tryRecv with
      | Except.ok r => (Obs.tryRecvReturned r, c)
      | Except.error _ => (Obs.assertFailed, c)
  | Op.recv =>
      match c.recv with
      | RecvOutcome.returns r => (Obs.recvReturned r, c)
      | RecvOutcome.assertFail => (Obs.assertFailed, c)
      | RecvOutcome.suspends => (Obs.recvSuspended, c)

/-- Run a sequence of API calls on the `OneShot` object. -/
def runOps (c : OneShot T) : List (Op T) → List (Obs T) × OneShot T
  | [] => ([], c)
  | op :: ops =>
      let os := runOps (step c op).2 ops
      ((step c op).1 :: os.1, os.2)

end Aiosync

/-- The correspondence between the two modules: the `aio_sync` shared cell and the
`aiosync` object hold the same three fields. -/
def toOneShot {T : Type} (s : AioSync.SharedState T) : Aiosync.OneShot T :=
  ⟨s.waker, s.sent, s.value⟩

namespace AioSync

variable {T : Type}

lemma step_filled (v : Option T) (op : Op T) :
    step (filled v) op =
      ((match op with
        | Op.send _ => Obs.raisedValueError
        | Op.tryRecv => Obs.tryRecvReturned v
        | Op.recv => Obs.recvReturned v), filled v) := by
  cases op <;> rfl

lemma runOps_filled (v : Option T) (ops : List (Op T)) :
    runOps (filled v) ops =
      ((ops.map fun op =>
        match op with
        | Op.send _ => Obs.raisedValueError
        | Op.tryRecv => Obs.tryRecvReturned v
        | Op.recv => Obs.recvReturned v), filled v) := by
  induction ops with
  | nil => rfl
  | cons op ops ih => simp [runOps, step_filled, ih]

lemma step_init_send (v : Option T) :
    step (SharedState.init T) (Op.send v) = (Obs.sendOk, filled v) := rfl

lemma step_init_tryRecv :
    step (SharedState.init T) Op.tryRecv = (Obs.tryRecvReturned none, SharedState.init T) :=
  rfl

lemma step_init_recv :
    step (SharedState.init T) Op.recv = (Obs.recvSuspended, SharedState.init T) := rfl

lemma execOps_init (ops : List (Op T)) :
    execOps (SharedState.init T) ops =
      (firstSendPayload ops).elim (SharedState.init T) filled := by
  induction ops with
  | nil => rfl
  | cons op ops ih =>
    cases op with
    | send v =>
      simp [execOps, runOps, step_init_send, runOps_filled, firstSendPayload]
    | tryRecv =>
      simpa [execOps, runOps, step_init_tryRecv, firstSendPayload] using ih
    | recv =>
      simpa [execOps, runOps, step_init_recv, firstSendPayload] using ih

lemma sendOk_mem_runOps_init (ops : List (Op T)) :
    Obs.sendOk ∈ (runOps (SharedState.init T) ops).1 ↔ firstSendPayload ops ≠ none := by
  induction ops with
  | nil => simp [runOps, firstSendPayload]
  | cons op ops ih =>
    cases op with
    | send v => simp [runOps, step_init_send, firstSendPayload]
    | tryRecv => simpa [runOps, step_init_tryRecv, firstSendPayload] using ih
    | recv => simpa [runOps, step_init_recv, firstSendPayload] using ih

end AioSync

lemma aiosync_step_eq {T : Type} (s : AioSync.SharedState T) (op : Op T) :
    Aiosync.step (toOneShot s) op =
      ((AioSync.step s op).1, toOneShot (AioSync.step s op).2) := by
  cases op with
  | send v =>
    cases h : s.waker <;>
      simp [Aiosync.step, AioSync.step, Aiosync.OneShot.send, AioSync.send, toOneShot, h]
  | tryRecv =>
    cases hw : s.waker <;> cases hs : s.sent <;>
      simp [Aiosync.step, AioSync.step, Aiosync.OneShot.tryRecv, AioSync.tryRecv,
        toOneShot, hw, hs]
  | recv =>
    cases hw : s.waker <;> cases hs : s.sent <;>
      simp [Aiosync.step, AioSync.step, Aiosync.OneShot.recv, AioSync.recv,
        toOneShot, hw, hs]

lemma aiosync_runOps_eq {T : Type} (s : AioSync.SharedState T) (ops : List (Op T)) :
    Aiosync.runOps (toOneShot s) ops =
      ((AioSync.runOps s ops).1, toOneShot (AioSync.runOps s ops).2) := by
  induction ops generalizing s with
  | nil => rfl
  | cons op ops ih =>
    simp [Aiosync.runOps, AioSync.runOps, aiosync_step_eq, ih]

/-- C1: for every value `v` of the payload type `T`, constructing a fresh channel,
calling `send(v)` once, and then calling `try_recv()` returns the value sent (`Some v`),
in both the `aio_sync` sender/receiver module and the `aiosync` `OneShot` module. -/
theorem c1_send_then_try_recv (T : Type) (v : T) :
    (AioSync.send (AioSync.SharedState.init T) (some v)).1 = Except.ok () ∧
    AioSync.tryRecv (AioSync.send (AioSync.SharedState.init T) (some v)).2 =
      Except.ok (some v) ∧
    (Aiosync.OneShot.send (Aiosync.OneShot.init T) (some v)).1 = Except.ok () ∧
    Aiosync.OneShot.tryRecv
        (Aiosync.OneShot.send (Aiosync.OneShot.init T) (some v)).2 =
      Except.ok (some v) :=
  ⟨rfl, rfl, rfl, rfl⟩

/-- C2: `send` raises the already-sent error (`ValueError`, the spec's
`AlreadySentError`) exactly when the waker is already set, and — along any trace of API
calls from a fresh channel — exactly when a previous `send` on the same cell already
succeeded; in particular the first `send` on a fresh channel always succeeds, in both
modules. -/
theorem c2_already_sent_iff (T : Type) :
    (∀ v : Option T, (AioSync.send (AioSync.SharedState.init T) v).1 = Except.ok ()) ∧
    (∀ (s : AioSync.SharedState T) (v : Option T),
      (AioSync.send s v).1 = Except.error PyError.valueError ↔ s.waker = true) ∧
    (∀ (ops : List (Op T)) (v : Option T),
      (AioSync.send (AioSync.execOps (AioSync.SharedState.init T) ops) v).1 =
          Except.error PyError.valueError ↔
        Obs.sendOk ∈ (AioSync.runOps (AioSync.SharedState.init T) ops).1) ∧
    (∀ v : Option T,
      (Aiosync.OneShot.send (Aiosync.OneShot.init T) v).1 = Except.ok ()) := by
  refine ⟨fun _ => rfl, ?_, ?_, fun _ => rfl⟩
  · intro s v
    cases h : s.waker <;> simp [AioSync.send, h]
  · intro ops v
    rw [AioSync.execOps_init, AioSync.sendOk_mem_runOps_init]
    cases h : AioSync.firstSendPayload ops with
    | none => simp [AioSync.SharedState.init, AioSync.send]
    | some w => simp [AioSync.filled, AioSync.send]

/-- C3: a second `send` on the same channel raises and leaves the cell entirely
unchanged: after `send v1` succeeds and `send v2` fails, the state is exactly the one
produced by the first `send`, and `try_recv` still returns `v1`, in both modules. -/
theorem c3_second_send_unchanged (T : Type) (v1 v2 : T) :
    (AioSync.send (AioSync.SharedState.init T) (some v1)).1 = Except.ok () ∧
    (AioSync.send (AioSync.send (AioSync.SharedState.init T) (some v1)).2 (some v2)).1 =
      Except.error PyError.valueError ∧
    (AioSync.send (AioSync.send (AioSync.SharedState.init T) (some v1)).2 (some v2)).2 =
      (AioSync.send (AioSync.SharedState.init T) (some v1)).2 ∧
    AioSync.tryRecv
        (AioSync.send (AioSync.send (AioSync.SharedState.init T) (some v1)).2
          (some v2)).2 =
      Except.ok (some v1) ∧
    (Aiosync.OneShot.send
        (Aiosync.OneShot.send (Aiosync.OneShot.init T) (some v1)).2 (some v2)).1 =
      Except.error PyError.valueError ∧
    (Aiosync.OneShot.send
        (Aiosync.OneShot.send (Aiosync.OneShot.init T) (some v1)).2 (some v2)).2 =
      (Aiosync.OneShot.send (Aiosync.OneShot.init T) (some v1)).2 ∧
    Aiosync.OneShot.tryRecv
        (Aiosync.OneShot.send
          (Aiosync.OneShot.send (Aiosync.OneShot.init T) (some v1)).2 (some v2)).2 =
      Except.ok (some v1) :=
  ⟨rfl, rfl, rfl, rfl, rfl, rfl, rfl⟩

namespace AioSync

variable {T : Type}

lemma firstSendPayload_isSome_of_noNoneSend (ops : List (Op T))
    (h : noNoneSend ops = true) {v : Option T}
    (hv : firstSendPayload ops = some v) : v.isSome = true := by
  induction ops with
  | nil => simp [firstSendPayload] at hv
  | cons op ops ih =>
    cases op with
    | send w =>
      cases w with
      | none => simp [noNoneSend] at h
      | some x =>
        simp [firstSendPayload] at hv
        simp [← hv]
    | tryRecv =>
      simp [noNoneSend] at h
      exact ih (by simpa [noNoneSend] using h) (by simpa [firstSendPayload] using hv)
    | recv =>
      simp [noNoneSend] at h
      exact ih (by simpa [noNoneSend] using h) (by simpa [firstSendPayload] using hv)

end AioSync

/-- C4 counterexample: the state reached from a fresh channel by the single API call
`send(None)` — legal when the payload type admits `None` — has the waker set and the
sent flag true, but its `value` field holds the Python `None`, so "the signal is set iff
the sent flag is true and the value is present" fails at this reachable state. -/
theorem c4_invariant_counterexample :
    ¬ ((AioSync.execOps (AioSync.SharedState.init Nat) [Op.send none]).waker = true ↔
      ((AioSync.execOps (AioSync.SharedState.init Nat) [Op.send none]).sent = true ∧
        (AioSync.execOps (AioSync.SharedState.init Nat)
          [Op.send none]).value.isSome = true)) := by
  decide

/-- C4 (amended): in every state reachable from a fresh channel through the public API,
the waker is set iff the sent flag is true; and provided no `send` of the history
carried the Python object `None`, the waker is set iff the sent flag is true and the
`value` field is present. -/
theorem c4_invariant_reachable (T : Type) :
    (∀ ops : List (Op T),
      (AioSync.execOps (AioSync.SharedState.init T) ops).waker =
        (AioSync.execOps (AioSync.SharedState.init T) ops).sent) ∧
    (∀ ops : List (Op T), AioSync.noNoneSend ops = true →
      ((AioSync.execOps (AioSync.SharedState.init T) ops).waker = true ↔
        ((AioSync.execOps (AioSync.SharedState.init T) ops).sent = true ∧
          (AioSync.execOps (AioSync.SharedState.init T) ops).value.isSome = true))) := by
  constructor
  · intro ops
    rw [AioSync.execOps_init]
    cases AioSync.firstSendPayload ops <;> rfl
  · intro ops h
    rw [AioSync.execOps_init]
    cases hf : AioSync.firstSendPayload ops with
    | none => simp [AioSync.SharedState.init]
    | some v =>
      have hv := AioSync.firstSendPayload_isSome_of_noNoneSend ops h hf
      simp [AioSync.filled, hv]

/-- Witness for C4 (amended): the history made of the single call `send(5)` sends no
`None`, and in the resulting state the invariant holds. -/
theorem c4_invariant_reachable_witness :
    (AioSync.execOps (AioSync.SharedState.init Nat) [Op.send (some 5)]).waker = true ↔
      ((AioSync.execOps (AioSync.SharedState.init Nat) [Op.send (some 5)]).sent = true ∧
        (AioSync.execOps (AioSync.SharedState.init Nat)
          [Op.send (some 5)]).value.isSome = true) :=
  (c4_invariant_reachable Nat).2 [Op.send (some 5)] (by decide)

/-- C5: the two modules implement the same primitive: the fresh states correspond, and
for every sequence of `send` / `try_recv` / `recv` calls, running the `aiosync`
`OneShot` object produces exactly the observations of the `aio_sync`
sender/receiver pair over the corresponding shared cell, with corresponding final
states. -/
theorem c5_modules_equivalent (T : Type) :
    toOneShot (AioSync.SharedState.init T) = Aiosync.OneShot.init T ∧
    ∀ (s : AioSync.SharedState T) (ops : List (Op T)),
      Aiosync.runOps (toOneShot s) ops =
        ((AioSync.runOps s ops).1, toOneShot (AioSync.runOps s ops).2) :=
  ⟨rfl, fun s ops => aiosync_runOps_eq s ops⟩

/-- C6: `try_recv` on a fresh channel returns `None`; more generally, after any trace of
API calls from a fresh channel it returns the stored value (the payload of the first,
successful `send`) when a send has completed and `None` otherwise, and it never raises:
its result is always an `ok`. -/
theorem c6_try_recv_total (T : Type) :
    AioSync.tryRecv (AioSync.SharedState.init T) = Except.ok none ∧
    Aiosync.OneShot.tryRecv (Aiosync.OneShot.init T) = Except.ok none ∧
    ∀ ops : List (Op T),
      AioSync.tryRecv (AioSync.execOps (AioSync.SharedState.init T) ops) =
        Except.ok (AioSync.firstSendPayload ops).join := by
  refine ⟨rfl, rfl, fun ops => ?_⟩
  rw [AioSync.execOps_init]
  cases AioSync.firstSendPayload ops <;> rfl

/-- C7: if the waker is already set when `recv` is called — which happens exactly when a
`send` completed earlier in the trace — `recv` returns immediately (no suspension) and
its result is the value that was sent, in both modules. -/
theorem c7_recv_immediate (T : Type) (ops : List (Op T))
    (h : (AioSync.execOps (AioSync.SharedState.init T) ops).waker = true) :
    ∃ v : Option T, AioSync.firstSendPayload ops = some v ∧
      AioSync.recv (AioSync.execOps (AioSync.SharedState.init T) ops) =
        RecvOutcome.returns v ∧
      (AioSync.execOps (AioSync.SharedState.init T) ops).value = v ∧
      Aiosync.OneShot.recv
          (toOneShot (AioSync.execOps (AioSync.SharedState.init T) ops)) =
        RecvOutcome.returns v := by
  rw [AioSync.execOps_init] at h ⊢
  cases hf : AioSync.firstSendPayload ops with
  | none => rw [hf] at h; exact absurd h (by simp [AioSync.SharedState.init])
  | some v => exact ⟨v, rfl, rfl, rfl, rfl⟩

/-- Witness for C7: after the single call `send(3)` the waker is set, and `recv` returns
`3` immediately. -/
theorem c7_recv_immediate_witness :
    (AioSync.execOps (AioSync.SharedState.init Nat) [Op.send (some 3)]).waker = true ∧
    ∃ v : Option Nat, AioSync.firstSendPayload [Op.send (some 3)] = some v ∧
      AioSync.recv (AioSync.execOps (AioSync.SharedState.init Nat) [Op.send (some 3)]) =
        RecvOutcome.returns v ∧
      (AioSync.execOps (AioSync.SharedState.init Nat) [Op.send (some 3)]).value = v ∧
      Aiosync.OneShot.recv
          (toOneShot
            (AioSync.execOps (AioSync.SharedState.init Nat) [Op.send (some 3)])) =
        RecvOutcome.returns v :=
  ⟨rfl, c7_recv_immediate Nat [Op.send (some 3)] rfl⟩

namespace AioSync

variable {T : Type}

lemma step_tryRecv_snd (s : SharedState T) : (step s Op.tryRecv).2 = s := by
  cases h : tryRecv s <;> simp [step, h]

lemma step_recv_snd (s : SharedState T) : (step s Op.recv).2 = s := by
  cases h : recv s <;> simp [step, h]

lemma assertFailed_not_mem_runOps_init (ops : List (Op T)) :
    Obs.assertFailed ∉ (runOps (SharedState.init T) ops).1 := by
  induction ops with
  | nil => simp [runOps]
  | cons op ops ih =>
    cases op with
    | send v =>
      simp [runOps, step_init_send, runOps_filled]
      intro a _
      cases a <;> simp
    | tryRecv => simpa [runOps, step_init_tryRecv] using ih
    | recv => simpa [runOps, step_init_recv] using ih

end AioSync

namespace Aiosync

variable {T : Type}

lemma shot_step_tryRecv_snd (c : OneShot T) : (step c Op.tryRecv).2 = c := by
  cases h : c.tryRecv <;> simp [step, h]

lemma shot_step_recv_snd (c : OneShot T) : (step c Op.recv).2 = c := by
  cases h : c.recv <;> simp [step, h]

end Aiosync

lemma aiosync_tryRecv_eq {T : Type} (s : AioSync.SharedState T) :
    Aiosync.OneShot.tryRecv (toOneShot s) = AioSync.tryRecv s := rfl

lemma aiosync_recv_eq {T : Type} (s : AioSync.SharedState T) :
    Aiosync.OneShot.recv (toOneShot s) = AioSync.recv s := rfl

/-- C8: `try_recv` and `recv` never mutate the shared cell (only `send` does), in both
modules; consequently running any number of consecutive `try_recv` calls from any cell
state returns the same observation every time and leaves the state untouched. -/
theorem c8_readers_pure (T : Type) :
    (∀ s : AioSync.SharedState T, (AioSync.step s Op.tryRecv).2 = s) ∧
    (∀ s : AioSync.SharedState T, (AioSync.step s Op.recv).2 = s) ∧
    (∀ c : Aiosync.OneShot T, (Aiosync.step c Op.tryRecv).2 = c) ∧
    (∀ c : Aiosync.OneShot T, (Aiosync.step c Op.recv).2 = c) ∧
    (∀ (s : AioSync.SharedState T) (n : Nat),
      AioSync.runOps s (List.replicate n Op.tryRecv) =
        (List.replicate n (AioSync.step s Op.tryRecv).1, s)) := by
  refine ⟨AioSync.step_tryRecv_snd, AioSync.step_recv_snd,
    Aiosync.shot_step_tryRecv_snd, Aiosync.shot_step_recv_snd, fun s n => ?_⟩
  induction n with
  | zero => rfl
  | succ n ih =>
    simp [List.replicate_succ, AioSync.runOps, AioSync.step_tryRecv_snd, ih]

/-- C9: the defensive assertion "waker set implies sent" of `try_recv` and `recv` never
fires in any state reachable through the public API from a fresh channel, in either
module: no trace of API calls ever produces an `AssertionError`. -/
theorem c9_assertion_branch_unreachable (T : Type) (ops : List (Op T)) :
    AioSync.tryRecv (AioSync.execOps (AioSync.SharedState.init T) ops) ≠
      Except.error PyError.assertionError ∧
    AioSync.recv (AioSync.execOps (AioSync.SharedState.init T) ops) ≠
      RecvOutcome.assertFail ∧
    Obs.assertFailed ∉ (AioSync.runOps (AioSync.SharedState.init T) ops).1 ∧
    Aiosync.OneShot.tryRecv
        (toOneShot (AioSync.execOps (AioSync.SharedState.init T) ops)) ≠
      Except.error PyError.assertionError ∧
    Aiosync.OneShot.recv
        (toOneShot (AioSync.execOps (AioSync.SharedState.init T) ops)) ≠
      RecvOutcome.assertFail ∧
    Obs.assertFailed ∉ (Aiosync.runOps (Aiosync.OneShot.init T) ops).1 := by
  have h1 : AioSync.tryRecv (AioSync.execOps (AioSync.SharedState.init T) ops) ≠
      Except.error PyError.assertionError := by
    rw [AioSync.execOps_init]
    cases AioSync.firstSendPayload ops <;> simp [AioSync.tryRecv,
      AioSync.SharedState.init, AioSync.filled]
  have h2 : AioSync.recv (AioSync.execOps (AioSync.SharedState.init T) ops) ≠
      RecvOutcome.assertFail := by
    rw [AioSync.execOps_init]
    cases AioSync.firstSendPayload ops <;> simp [AioSync.recv,
      AioSync.SharedState.init, AioSync.filled]
  have h3 := AioSync.assertFailed_not_mem_runOps_init (T := T) ops
  have h6 : Obs.assertFailed ∉ (Aiosync.runOps (Aiosync.OneShot.init T) ops).1 := by
    have : Aiosync.OneShot.init T = toOneShot (AioSync.SharedState.init T) := rfl
    rw [this, aiosync_runOps_eq]
    exact h3
  exact ⟨h1, h2, h3, by rw [aiosync_tryRecv_eq]; exact h1,
    by rw [aiosync_recv_eq]; exact h2, h6⟩

/-- C10: when the payload type admits `None` (the Python `None` is `none` in the
model), `send(None)` succeeds, yet a subsequent `try_recv` returns `None` — exactly the
result `try_recv` gives on a fresh channel — so the caller cannot distinguish a sent
`None` payload from an empty channel, in both modules. -/
theorem c10_none_payload_indistinguishable (T : Type) :
    (AioSync.send (AioSync.SharedState.init T) none).1 = Except.ok () ∧
    AioSync.tryRecv (AioSync.send (AioSync.SharedState.init T) none).2 =
      Except.ok none ∧
    AioSync.tryRecv (AioSync.send (AioSync.SharedState.init T) none).2 =
      AioSync.tryRecv (AioSync.SharedState.init T) ∧
    (Aiosync.OneShot.send (Aiosync.OneShot.init T) none).1 = Except.ok () ∧
    Aiosync.OneShot.tryRecv
        (Aiosync.OneShot.send (Aiosync.OneShot.init T) none).2 = Except.ok none ∧
    Aiosync.OneShot.tryRecv
        (Aiosync.OneShot.send (Aiosync.OneShot.init T) none).2 =
      Aiosync.OneShot.tryRecv (Aiosync.OneShot.init T) :=
  ⟨rfl, rfl, rfl, rfl, rfl, rfl⟩
